import Mathlib

/-!
Shallow embedding of the weather-intelligence pipeline of the
`WeatherPrediction` page (location resolution, weather fetching, daily
aggregation, farming advice, mock fallback, orchestration).

Conventions of the embedding:
* JavaScript numbers are modelled as rationals (`ℚ`); `Math.round` is
  `jsRound q = ⌊q + 1/2⌋`, which agrees with ECMAScript `Math.round` on all
  (exact) inputs, including negative half-integers.
* `String.prototype.trim` is modelled by `jsTrim`, dropping whitespace
  characters from both ends of the character list.
* Network effects are made explicit: the outcome of the geocoding request and
  of the two weather requests are parameters of the corresponding functions,
  and each result records whether the request was issued.
* `Math.random()` draws are explicit parameters (`MockEnv`), each expected in
  the interval `[0, 1)`.
* `Array.prototype.sort` with the comparator used by `getMostFrequent`
  (ascending by occurrence count) is modelled by `sortByCount`, which produces
  the unique stable sort guaranteed by ECMAScript for a consistent comparator:
  elements are grouped by ascending count, each group in original order.
-/

/-- ECMAScript `Math.round`: round half toward positive infinity. -/
def jsRound (q : ℚ) : ℤ := ⌊q + (1 : ℚ)/2⌋

/-- ECMAScript `String.prototype.trim`: drop whitespace from both ends. -/
def jsTrim (s : String) : String :=
  String.mk (((s.data.dropWhile Char.isWhitespace).reverse.dropWhile Char.isWhitespace).reverse)

/-- Embedding of `getWeatherCondition` (Home.jsx: the fixed lookup table from provider
`weather[0].main` values to display conditions, defaulting to
`"Partly Cloudy"`). -/
def getWeatherCondition (weatherMain : String) : String :=
  if weatherMain = "Clear" then "Sunny"
  else if weatherMain = "Clouds" then "Cloudy"
  else if weatherMain = "Rain" then "Rainy"
  else if weatherMain = "Drizzle" then "Rainy"
  else if weatherMain = "Thunderstorm" then "Thunderstorm"
  else if weatherMain = "Snow" then "Snowy"
  else if weatherMain = "Mist" then "Partly Cloudy"
  else if weatherMain = "Fog" then "Partly Cloudy"
  else if weatherMain = "Haze" then "Partly Cloudy"
  else "Partly Cloudy"

/-- Embedding of `getWeatherEmoji` (Home.jsx: provider condition to emoji, with a default). -/
def getWeatherEmoji (weatherMain : String) : String :=
  if weatherMain = "Clear" then "☀️"
  else if weatherMain = "Clouds" then "☁️"
  else if weatherMain = "Rain" then "🌧️"
  else if weatherMain = "Drizzle" then "🌦️"
  else if weatherMain = "Thunderstorm" then "⛈️"
  else if weatherMain = "Snow" then "❄️"
  else if weatherMain = "Mist" then "🌫️"
  else if weatherMain = "Fog" then "🌫️"
  else if weatherMain = "Haze" then "🌫️"
  else "🌤️"

/-- The normalized condition vocabulary named by the spec
(`PartlyCloudy` is spelled `"Partly Cloudy"` in the code). -/
def normalizedConditions : List String :=
  ["Sunny", "Cloudy", "Rainy", "Thunderstorm", "Snowy", "Partly Cloudy"]

/-- One displayed weather record (the shape shared by the `current` object,
the per-day forecast summaries and the mock days in Home.jsx).
`description` is present only on the real `current` record. -/
structure DailySummary where
  date : String
  day : String
  tempMax : ℚ
  tempMin : ℚ
  humidity : ℚ
  rainfall : ℚ
  windSpeed : ℚ
  condition : String
  icon : String
  description : Option String
deriving DecidableEq, Repr

/-- The default "no rule fired" advice line of `generateFarmingAdvice`. -/
def normalAdvice : String :=
  "🌱 Normal weather conditions - continue regular farming activities"

/-- The advice lines accumulated by the sequential `advice.push` calls of
`generateFarmingAdvice`, before the final default-message check. -/
def adviceCore (w : DailySummary) : List String :=
  (if w.rainfall > 15 then
    ["🌧️ Heavy rainfall expected - ensure proper drainage in fields",
     "🚜 Postpone harvesting activities if possible",
     "🌱 Good time for transplanting rice and other water-loving crops"]
   else if w.rainfall < 5 then
    ["☀️ Low rainfall - consider irrigation for water-sensitive crops",
     "🌾 Good conditions for harvesting mature crops",
     "💧 Monitor soil moisture levels closely"]
   else []) ++
  (if w.tempMax > 35 then
    ["🌡️ High temperatures - provide shade for livestock",
     "🕐 Schedule farm work during cooler hours (early morning/evening)"]
   else if w.tempMax < 20 then
    ["❄️ Cool weather - protect sensitive crops from cold",
     "🔥 Consider frost protection measures"]
   else []) ++
  (if w.humidity > 80 then
    ["💨 High humidity - watch for fungal diseases in crops",
     "🍃 Ensure good air circulation in greenhouses"]
   else []) ++
  (if w.windSpeed > 20 then
    ["💨 Strong winds expected - secure loose structures",
     "🌿 Protect young plants from wind damage"]
   else [])

/-- Embedding of `generateFarmingAdvice` (Home.jsx): threshold rules, then
`advice.length > 0 ? advice : [normal message]`. -/
def generateFarmingAdvice (currentWeather : DailySummary) : List String :=
  if (adviceCore currentWeather).length > 0 then adviceCore currentWeather
  else [normalAdvice]

/-- The stable ascending sort by occurrence count performed by
`arr.sort((a, b) => arr.filter(v => v === a).length - arr.filter(v => v === b).length)`:
occurrence counts are invariant under the in-place permutation, so the
comparator is consistent and ECMAScript guarantees the unique stable result —
elements grouped by ascending count, each group in original order. -/
def sortByCount (l : List String) : List String :=
  (List.range (l.length + 1)).flatMap (fun c => l.filter (fun x => l.count x == c))

/-- Embedding of `getMostFrequent` (Home.jsx): sort ascending by frequency, then `pop()`
(the last element; `none` models `undefined` on an empty array). -/
def getMostFrequent (arr : List String) : Option String :=
  (sortByCount arr).getLast?

/-- The largest occurrence count appearing in a list. -/
def maxCnt (l : List String) : ℕ :=
  (l.map (fun x => l.count x)).foldr max 0

/-- One three-hour forecast sample, as consumed from the provider forecast
response (`forecastResponse.data.list` entries). `dateKey` is
the per-item date string used as grouping key; `dateStr`/`dayStr` are the
display strings derived from the same timestamp; `rain3h` is the optional
three-hour rain accumulation; `windSpeed` is the raw m/s value. -/
structure ForecastItem where
  dateKey : String
  dateStr : String
  dayStr : String
  temp : ℚ
  humidity : ℚ
  rain3h : Option ℚ
  windSpeed : ℚ
  weatherMain : String
deriving DecidableEq, Repr

/-- The per-item rainfall read by the grouping loop: the optional three-hour
accumulation when the rain object is present, defaulting to zero. -/
def rainVal (it : ForecastItem) : ℚ := it.rain3h.getD 0

/-- One per-date accumulation bucket of the `dailyForecasts` object. -/
structure DayGroup where
  dateStr : String
  dayStr : String
  temps : List ℚ
  humidity : List ℚ
  rainfall : List ℚ
  windSpeed : List ℚ
  conditions : List String
  icons : List String
deriving DecidableEq, Repr

/-- The freshly created bucket (`{ date, day, temps: [], ... }`). -/
def emptyGroup (it : ForecastItem) : DayGroup :=
  { dateStr := it.dateStr, dayStr := it.dayStr, temps := [], humidity := [],
    rainfall := [], windSpeed := [], conditions := [], icons := [] }

/-- The six `push` calls appending the values of one item to its bucket.
Wind speed is converted from m/s to km/h (`* 3.6 = * 18/5`) here, and the raw
provider `weather[0].main` is pushed for both `conditions` and `icons`. -/
def addToGroup (g : DayGroup) (it : ForecastItem) : DayGroup :=
  { g with temps := g.temps ++ [it.temp],
           humidity := g.humidity ++ [it.humidity],
           rainfall := g.rainfall ++ [rainVal it],
           windSpeed := g.windSpeed ++ [it.windSpeed * (18/5)],
           conditions := g.conditions ++ [it.weatherMain],
           icons := g.icons ++ [it.weatherMain] }

/-- Processing one forecast item against the insertion-ordered association
list modelling the `dailyForecasts` object: update the existing bucket for the
`dateKey` of the item, or append a new bucket at the end. -/
def pushItem : List (String × DayGroup) → ForecastItem → List (String × DayGroup)
  | [], it => [(it.dateKey, addToGroup (emptyGroup it) it)]
  | (k, g) :: rest, it =>
      if k = it.dateKey then (k, addToGroup g it) :: rest
      else (k, g) :: pushItem rest it

/-- The `forEach` loop filling the `dailyForecasts` object. -/
def dailyForecasts (items : List ForecastItem) : List (String × DayGroup) :=
  items.foldl pushItem []

/-- Spread maximum (`Math.max`) on a non-empty list (`0` is never used: buckets are
non-empty by construction). -/
def maxQ : List ℚ → ℚ
  | [] => 0
  | x :: xs => xs.foldl max x

/-- Spread minimum (`Math.min`) on a non-empty list. -/
def minQ : List ℚ → ℚ
  | [] => 0
  | x :: xs => xs.foldl min x

/-- Sum by `reduce` with initial value zero. -/
def sumQ (l : List ℚ) : ℚ := l.foldl (· + ·) 0

/-- The per-bucket summary produced inside
`Object.values(dailyForecasts).slice(0, 7).map(day => ({...}))`. -/
def mkSummary (g : DayGroup) : DailySummary :=
  { date := g.dateStr,
    day := g.dayStr,
    tempMax := ((jsRound (maxQ g.temps) : ℤ) : ℚ),
    tempMin := ((jsRound (minQ g.temps) : ℤ) : ℚ),
    humidity := ((jsRound (sumQ g.humidity / (g.humidity.length : ℚ)) : ℤ) : ℚ),
    rainfall := ((jsRound (sumQ g.rainfall) : ℤ) : ℚ),
    windSpeed := ((jsRound (sumQ g.windSpeed / (g.windSpeed.length : ℚ)) : ℤ) : ℚ),
    condition := (getMostFrequent g.conditions).getD "",
    icon := getWeatherEmoji ((getMostFrequent g.icons).getD ""),
    description := none }

/-- The grouping-and-summarising stage of `fetchRealWeatherData`
(`Object.values(...).slice(0, 7).map(...)`), before the first slot is
overridden by the current-conditions record. -/
def aggregateForecast (items : List ForecastItem) : List DailySummary :=
  (((dailyForecasts items).map Prod.snd).take 7).map mkSummary

/-- The fields of the provider current-conditions response that
`fetchRealWeatherData` reads (`main.temp_max`, `main.temp_min`,
`main.humidity`, the optional one-hour rain accumulation, `wind.speed` in m/s,
`weather[0].main`, `weather[0].description`). -/
structure CurrentResponse where
  temp_max : ℚ
  temp_min : ℚ
  humidity : ℚ
  rain1h : Option ℚ
  windSpeed : ℚ
  weatherMain : String
  description : String
deriving DecidableEq, Repr

/-- The `current` record built by `fetchRealWeatherData` from the
current-conditions response. `todayDate`/`todayDay` stand for
`new Date().toLocaleDateString(...)`. -/
def currentSummary (todayDate todayDay : String) (c : CurrentResponse) : DailySummary :=
  { date := todayDate,
    day := todayDay,
    tempMax := ((jsRound c.temp_max : ℤ) : ℚ),
    tempMin := ((jsRound c.temp_min : ℤ) : ℚ),
    humidity := c.humidity,
    rainfall := (match c.rain1h with
                 | none => (0 : ℚ)
                 | some v => ((jsRound v : ℤ) : ℚ)),
    windSpeed := ((jsRound (c.windSpeed * (18/5)) : ℤ) : ℚ),
    condition := getWeatherCondition c.weatherMain,
    icon := getWeatherEmoji c.weatherMain,
    description := some c.description }

/-- The object returned to the page by both the real fetch and the mock
generator: `{ location, current, forecast, farmingAdvice }`. -/
structure WeatherReport where
  location : String
  current : DailySummary
  forecast : List DailySummary
  farmingAdvice : List String
deriving DecidableEq, Repr

/-- Embedding of `fetchRealWeatherData` (Home.jsx), success path, as a function of the two
provider responses: build `current`, group the forecast list by calendar date,
summarise the first seven groups, then replace the first summary wholesale by
`current` when the forecast array is non-empty. -/
def fetchRealWeatherData (todayDate todayDay : String) (label : String)
    (cur : CurrentResponse) (items : List ForecastItem) : WeatherReport :=
  let current := currentSummary todayDate todayDay cur
  let fc := aggregateForecast items
  let forecast := if fc.length > 0 then fc.set 0 current else fc
  { location := label,
    current := current,
    forecast := forecast,
    farmingAdvice := generateFarmingAdvice current }

/-- One candidate of the geocoding response
(`{name, lat, lon, country?, state?}`). Absent (or empty, hence falsy)
optional fields are modelled as `none`. -/
structure GeoCandidate where
  name : String
  state : Option String
  country : Option String
  lat : ℚ
  lon : ℚ
deriving DecidableEq, Repr

/-- Outcome of the geocoding request: a candidate list, or an axios error
carrying `error.response.status` (`none` for a network failure with no
response) and `error.message`. -/
inductive GeoOutcome where
  | ok (data : List GeoCandidate)
  | httpError (status : Option ℕ) (msg : String)
deriving DecidableEq, Repr

/-- The resolved-location object built from the first geocoding candidate. -/
structure LocationInfo where
  label : String
  lat : ℚ
  lon : ℚ
  name : String
  country : Option String
  state : Option String
deriving DecidableEq, Repr

/-- The display label template: the candidate name, then the state and the
country when present, each preceded by a comma and a space. -/
def mkLabel (g : GeoCandidate) : String :=
  g.name ++
  (match g.state with | some s => ", " ++ s | none => "") ++
  (match g.country with | some c => ", " ++ c | none => "")

instance {ε α : Type} [DecidableEq ε] [DecidableEq α] : DecidableEq (Except ε α) := fun a b =>
  match a, b with
  | Except.ok x, Except.ok y => decidable_of_iff (x = y) (by simp)
  | Except.error x, Except.error y => decidable_of_iff (x = y) (by simp)
  | Except.ok _, Except.error _ => isFalse (by simp)
  | Except.error _, Except.ok _ => isFalse (by simp)

/-- Result of `resolveLocation`: the value returned or the message thrown,
plus whether the geocoding request was actually issued. -/
structure ResolveOutcome where
  result : Except String LocationInfo
  networkCalled : Bool
deriving DecidableEq, Repr

/-- Embedding of `resolveLocation` (Home.jsx): validate the text (empty, then minimum
length 2), check the API configuration, then geocode and take the first
candidate. Errors thrown inside the `try` block (missing configuration and
the empty-result case) are re-thrown by the `catch` block wrapped in
`Unable to find location "..."`; axios errors are mapped by HTTP status
(401, 429, 404) and otherwise wrapped the same way. No built-in location
list is consulted: every input that passes validation reaches the network. -/
def resolveLocation (locationText : String) (cfgOk : Bool) (geo : GeoOutcome) :
    ResolveOutcome :=
  if jsTrim locationText = "" then
    { result := Except.error "Please enter a location name", networkCalled := false }
  else if (jsTrim locationText).length < 2 then
    { result := Except.error "Location name must be at least 2 characters long",
      networkCalled := false }
  else if cfgOk = false then
    { result := Except.error ("Unable to find location \"" ++ jsTrim locationText ++
                 "\". API configuration is missing"),
      networkCalled := false }
  else
    match geo with
    | GeoOutcome.ok (g :: _) =>
        { result := Except.ok
            { label := mkLabel g, lat := g.lat, lon := g.lon, name := g.name,
              country := g.country, state := g.state },
          networkCalled := true }
    | GeoOutcome.ok [] =>
        { result := Except.error ("Unable to find location \"" ++ jsTrim locationText ++
                     "\". Location \"" ++ jsTrim locationText ++
                     "\" not found. Please check spelling or try a nearby city."),
          networkCalled := true }
    | GeoOutcome.httpError (some 401) _ =>
        { result := Except.error "Invalid API key. Please check your configuration.",
          networkCalled := true }
    | GeoOutcome.httpError (some 429) _ =>
        { result := Except.error "Too many requests. Please wait a moment and try again.",
          networkCalled := true }
    | GeoOutcome.httpError (some 404) _ =>
        { result := Except.error ("Location \"" ++ jsTrim locationText ++
                     "\" not found. Please try a different location."),
          networkCalled := true }
    | GeoOutcome.httpError _ m =>
        { result := Except.error ("Unable to find location \"" ++ jsTrim locationText ++
                     "\". " ++ m),
          networkCalled := true }

/-- The `Math.random()` draws and date strings consumed by one iteration of
the 7-day loop of the mock generator. Every `r...` draw lies in `[0, 1)`. -/
structure MockDayEnv where
  dateStr : String
  dayStr : String
  rMax : ℚ
  rMin : ℚ
  rHum : ℚ
  rRain : ℚ
  rWind : ℚ
  rCond : ℚ
  rIcon : ℚ

/-- All pseudo-random inputs of one `generateMockWeatherData` call: the three
base draws and the per-day draws. -/
structure MockEnv where
  rTemp : ℚ
  rHum : ℚ
  rRain : ℚ
  day : Fin 7 → MockDayEnv

/-- The condition labels the mock generator samples from. -/
def mockConditions : List String :=
  ["Sunny", "Partly Cloudy", "Cloudy", "Rainy", "Thunderstorm"]

/-- The icons the mock generator samples from. -/
def mockIcons : List String := ["☀️", "⛅", "☁️", "🌧️", "⛈️"]

/-- One day synthesized by the loop body of `generateMockWeatherData`:
`baseTemp = rand*15 + 20`, `baseHumidity = rand*30 + 50`,
`baseRainfall = rand*20`, then per-day jitter, with
`windSpeed = round(rand*15 + 5)` and condition/icon picked by
`Math.floor(rand*5)`. -/
def mockDay (env : MockEnv) (i : Fin 7) : DailySummary :=
  let baseTemp := env.rTemp * 15 + 20
  let baseHumidity := env.rHum * 30 + 50
  let baseRainfall := env.rRain * 20
  let d := env.day i
  { date := d.dateStr,
    day := d.dayStr,
    tempMax := ((jsRound (baseTemp + d.rMax * 8 - 4) : ℤ) : ℚ),
    tempMin := ((jsRound (baseTemp - 5 + d.rMin * 4) : ℤ) : ℚ),
    humidity := ((jsRound (baseHumidity + d.rHum * 20 - 10) : ℤ) : ℚ),
    rainfall := ((jsRound (baseRainfall + d.rRain * 10 - 5) : ℤ) : ℚ),
    windSpeed := ((jsRound (d.rWind * 15 + 5) : ℤ) : ℚ),
    condition := mockConditions.getD (⌊d.rCond * 5⌋).toNat "",
    icon := mockIcons.getD (⌊d.rIcon * 5⌋).toNat "",
    description := none }

/-- Embedding of `generateMockWeatherData` (Home.jsx): the 7-iteration loop unrolled;
`current` is `forecast[0]` and the advice is computed from it. -/
def generateMockWeatherData (location : String) (env : MockEnv) : WeatherReport :=
  let forecast := [mockDay env 0, mockDay env 1, mockDay env 2, mockDay env 3,
                   mockDay env 4, mockDay env 5, mockDay env 6]
  { location := location,
    current := mockDay env 0,
    forecast := forecast,
    farmingAdvice := generateFarmingAdvice (mockDay env 0) }

/-- The page state after one `fetchWeatherData` run settles
(`weatherData`, `error`), plus whether the geocoding request and the weather
requests were issued. -/
structure OrchestratorResult where
  weatherData : Option WeatherReport
  error : Option String
  geoCalled : Bool
  weatherCalled : Bool
deriving DecidableEq, Repr

/-- Embedding of `fetchWeatherData` (Home.jsx), the orchestrator: reject a blank input
up front (blocking validation error, nothing fetched); otherwise resolve and
fetch, and on ANY caught failure fall back to
`generateMockWeatherData` (with the label defaulting to Unknown Location) and clear
the error (`setError(null)` — the mock generator cannot itself fail). -/
def fetchWeatherData (selectedLocation : String) (cfgOk : Bool) (geo : GeoOutcome)
    (wx : Except String (CurrentResponse × List ForecastItem))
    (todayDate todayDay : String) (env : MockEnv) : OrchestratorResult :=
  if jsTrim selectedLocation = "" then
    { weatherData := none, error := some "Please enter a location name",
      geoCalled := false, weatherCalled := false }
  else
    let r := resolveLocation selectedLocation cfgOk geo
    match r.result with
    | Except.ok loc =>
        match wx with
        | Except.ok (cur, items) =>
            { weatherData := some (fetchRealWeatherData todayDate todayDay loc.label cur items),
              error := none, geoCalled := r.networkCalled, weatherCalled := true }
        | Except.error _ =>
            { weatherData := some (generateMockWeatherData
                (if selectedLocation = "" then "Unknown Location" else selectedLocation) env),
              error := none, geoCalled := r.networkCalled, weatherCalled := true }
    | Except.error _ =>
        { weatherData := some (generateMockWeatherData
            (if selectedLocation = "" then "Unknown Location" else selectedLocation) env),
          error := none, geoCalled := r.networkCalled, weatherCalled := false }

/-- The six threshold guards of `generateFarmingAdvice`, exactly as tested by
its `if` statements. -/
def ruleFires (w : DailySummary) : Prop :=
  w.rainfall > 15 ∨ w.rainfall < 5 ∨ w.tempMax > 35 ∨ w.tempMax < 20 ∨
  w.humidity > 80 ∨ w.windSpeed > 20

instance (w : DailySummary) : Decidable (ruleFires w) := by
  unfold ruleFires
  infer_instance

/-- A summary on which none of the six threshold rules fires. -/
def calmDay : DailySummary :=
  { date := "d", day := "D", tempMax := 25, tempMin := 15, humidity := 50,
    rainfall := 10, windSpeed := 10, condition := "Sunny", icon := "s",
    description := none }

/-- Pseudo-random draws fixed at one half (all inside `[0, 1)`). -/
def midEnv : MockEnv :=
  { rTemp := 1/2, rHum := 1/2, rRain := 1/2,
    day := fun _ => { dateStr := "d", dayStr := "D", rMax := 1/2, rMin := 1/2,
                      rHum := 1/2, rRain := 1/2, rWind := 1/2, rCond := 0, rIcon := 0 } }

/-- A geocoding response whose first candidate is the provider entry for Delhi. -/
def delhiGeo : GeoOutcome :=
  GeoOutcome.ok [{ name := "Delhi", state := none, country := some "IN",
                   lat := 28, lon := 77 }]

/-- Valid pseudo-random draws (all inside `[0, 1)`) under which the mock
generator violates both summary invariants: base temperature draw 0
(baseTemp = 20), base rainfall draw 0 (baseRainfall = 0), day draws
rMax = 0 and rMin = 9/10 and rRain = 0. -/
def adverseEnv : MockEnv :=
  { rTemp := 0, rHum := 0, rRain := 0,
    day := fun _ => { dateStr := "d", dayStr := "D", rMax := 0, rMin := 9/10,
                      rHum := 0, rRain := 0, rWind := 0, rCond := 0, rIcon := 0 } }

/-- A single forecast sample used to instantiate the C6 theorem. -/
def soloItem : ForecastItem :=
  { dateKey := "k", dateStr := "d1", dayStr := "Mon", temp := 20, humidity := 50,
    rain3h := none, windSpeed := 2, weatherMain := "Clear" }

/-- The provider current-conditions response used in concrete instances. -/
def demoCurrent : CurrentResponse :=
  { temp_max := 30, temp_min := 20, humidity := 40, rain1h := none,
    windSpeed := 5, weatherMain := "Clouds", description := "scattered clouds" }

/-- The scenario samples: one calendar date, temperatures `[18, 22, 25]`,
humidity `[60, 65, 70]`, rainfall `[0, 2, 0]` and wind speeds whose km/h
conversions are `[5, 10, 15]`. -/
def sampleItems : List ForecastItem :=
  [{ dateKey := "Mon", dateStr := "d", dayStr := "Mon", temp := 18, humidity := 60,
     rain3h := some 0, windSpeed := 25/18, weatherMain := "Clear" },
   { dateKey := "Mon", dateStr := "d", dayStr := "Mon", temp := 22, humidity := 65,
     rain3h := some 2, windSpeed := 25/9, weatherMain := "Clear" },
   { dateKey := "Mon", dateStr := "d", dayStr := "Mon", temp := 25, humidity := 70,
     rain3h := some 0, windSpeed := 25/6, weatherMain := "Clear" }]

/-- A list with two values tied at the maximal count; the tie is broken in
favour of `"Clear"`, whose last occurrence comes later. -/
def tieList : List String := ["Clear", "Rain", "Rain", "Clear"]

/-- Two forecast samples on two distinct dates, both with the raw provider
value `"Clear"` (which the table would map to `"Sunny"`). -/
def rawItems : List ForecastItem :=
  [{ dateKey := "k1", dateStr := "d1", dayStr := "Mon", temp := 20, humidity := 50,
     rain3h := none, windSpeed := 2, weatherMain := "Clear" },
   { dateKey := "k2", dateStr := "d2", dayStr := "Tue", temp := 21, humidity := 51,
     rain3h := none, windSpeed := 2, weatherMain := "Clear" }]

/-! Theorems: the advisory engine (claims C9, C10). -/

theorem normalAdvice_not_mem_adviceCore (w : DailySummary) :
    normalAdvice ∉ adviceCore w := by
  unfold adviceCore
  split_ifs <;> decide

theorem adviceCore_eq_nil_iff (w : DailySummary) :
    adviceCore w = [] ↔ ¬ ruleFires w := by
  unfold adviceCore ruleFires
  split_ifs <;> simp_all


/-- C9: the advisory engine is a pure function of the summary; the default
"normal conditions" line is absent whenever at least one of the six threshold
rules fires, and the advice list is exactly the default line when none
fires. -/
theorem advise_pure_and_default_message (w : DailySummary) :
    generateFarmingAdvice w = generateFarmingAdvice w ∧
    (ruleFires w → normalAdvice ∉ generateFarmingAdvice w) ∧
    (¬ ruleFires w → generateFarmingAdvice w = [normalAdvice]) := by
  refine ⟨rfl, ?_, ?_⟩
  · intro hf
    have hne : adviceCore w ≠ [] := by
      intro h0
      exact (adviceCore_eq_nil_iff w).mp h0 hf
    have hlen : (adviceCore w).length > 0 := List.length_pos.mpr hne
    unfold generateFarmingAdvice
    rw [if_pos hlen]
    exact normalAdvice_not_mem_adviceCore w
  · intro hnf
    have h0 : adviceCore w = [] := (adviceCore_eq_nil_iff w).mpr hnf
    unfold generateFarmingAdvice
    rw [h0]
    simp

theorem advise_pure_and_default_message_witness :
    ¬ ruleFires calmDay ∧ generateFarmingAdvice calmDay = [normalAdvice] :=
  ⟨by decide, (advise_pure_and_default_message calmDay).2.2 (by decide)⟩

/-! Theorems: the wind bound of the mock generator (claim C10). -/

theorem mock_wind_round_le (r : ℚ) (_h0 : 0 ≤ r) (h1 : r < 1) :
    ((jsRound (r * 15 + 5) : ℤ) : ℚ) ≤ 20 := by
  have hlt : (r * 15 + 5) + (1 : ℚ)/2 < ((21 : ℤ) : ℚ) := by push_cast; linarith
  have hfloor : jsRound (r * 15 + 5) < 21 := Int.floor_lt.mpr hlt
  have : jsRound (r * 15 + 5) ≤ 20 := by omega
  exact_mod_cast this

theorem strong_wind_not_mem_adviceCore (w : DailySummary) (h : ¬ w.windSpeed > 20) :
    "💨 Strong winds expected - secure loose structures" ∉ adviceCore w ∧
    "🌿 Protect young plants from wind damage" ∉ adviceCore w := by
  unfold adviceCore
  rw [if_neg h]
  split_ifs <;> exact ⟨by decide, by decide⟩

theorem strong_wind_not_mem_advice (w : DailySummary) (h : ¬ w.windSpeed > 20) :
    "💨 Strong winds expected - secure loose structures" ∉ generateFarmingAdvice w ∧
    "🌿 Protect young plants from wind damage" ∉ generateFarmingAdvice w := by
  unfold generateFarmingAdvice
  split_ifs with hl
  · exact strong_wind_not_mem_adviceCore w h
  · exact ⟨by decide, by decide⟩

/-- C10: for in-range pseudo-random draws, every synthesized day has wind
speed at most 20 km/h, so the strong-wind advisory lines never appear in a
advice of a mock report. -/
theorem mock_report_wind_bounded (location : String) (env : MockEnv)
    (h : ∀ i : Fin 7, 0 ≤ (env.day i).rWind ∧ (env.day i).rWind < 1) :
    (∀ s ∈ (generateMockWeatherData location env).forecast, s.windSpeed ≤ 20) ∧
    "💨 Strong winds expected - secure loose structures" ∉
      (generateMockWeatherData location env).farmingAdvice ∧
    "🌿 Protect young plants from wind damage" ∉
      (generateMockWeatherData location env).farmingAdvice := by
  have hw : ∀ i : Fin 7, (mockDay env i).windSpeed ≤ 20 := fun i =>
    mock_wind_round_le ((env.day i).rWind) (h i).1 (h i).2
  refine ⟨?_, ?_, ?_⟩
  · intro s hs
    simp only [generateMockWeatherData, List.mem_cons, List.not_mem_nil, or_false] at hs
    rcases hs with rfl | rfl | rfl | rfl | rfl | rfl | rfl <;> exact hw _
  · exact (strong_wind_not_mem_advice (mockDay env 0) (not_lt.mpr (hw 0))).1
  · exact (strong_wind_not_mem_advice (mockDay env 0) (not_lt.mpr (hw 0))).2

theorem mock_report_wind_bounded_witness :
    (∀ i : Fin 7, 0 ≤ (midEnv.day i).rWind ∧ (midEnv.day i).rWind < 1) ∧
    ((∀ s ∈ (generateMockWeatherData "Delhi" midEnv).forecast, s.windSpeed ≤ 20) ∧
     "💨 Strong winds expected - secure loose structures" ∉
       (generateMockWeatherData "Delhi" midEnv).farmingAdvice ∧
     "🌿 Protect young plants from wind damage" ∉
       (generateMockWeatherData "Delhi" midEnv).farmingAdvice) :=
  ⟨fun _ => ⟨by norm_num [midEnv], by norm_num [midEnv]⟩,
   mock_report_wind_bounded "Delhi" midEnv
     (fun _ => ⟨by norm_num [midEnv], by norm_num [midEnv]⟩)⟩

/-! Theorems: resolver tiering (claim C3) and mock invariant violations (claim C4). -/

/-- C3 exhibit: the implemented `resolveLocation` consults no built-in
location list — on the input `"delhi"` it issues the geocoding request and
returns the first provider candidate, contrary to the documented tier-1
built-in lookup. -/
theorem resolve_delhi_calls_network :
    (resolveLocation "delhi" true delhiGeo).networkCalled = true ∧
    (resolveLocation "delhi" true delhiGeo).result =
      Except.ok { label := "Delhi, IN", lat := 28, lon := 77, name := "Delhi",
                  country := some "IN", state := none } :=
  ⟨rfl, rfl⟩

/-- C4 exhibit: under the reachable draws of `adverseEnv` the synthesized
current day has `rainfall = round(0 + 0*10 - 5) = -5 < 0` and
`tempMin = round(20 - 5 + 3.6) = 19 > 16 = round(20 + 0 - 4) = tempMax`,
violating both claimed `DailySummary` invariants. -/
theorem mock_invariants_violated :
    (generateMockWeatherData "Delhi" adverseEnv).current.rainfall = -5 ∧
    (generateMockWeatherData "Delhi" adverseEnv).current.rainfall < 0 ∧
    (generateMockWeatherData "Delhi" adverseEnv).current.tempMax = 16 ∧
    (generateMockWeatherData "Delhi" adverseEnv).current.tempMin = 19 ∧
    (generateMockWeatherData "Delhi" adverseEnv).current.tempMax <
      (generateMockWeatherData "Delhi" adverseEnv).current.tempMin := by
  refine ⟨?_, ?_, ?_, ?_, ?_⟩ <;>
    · simp only [generateMockWeatherData, mockDay, adverseEnv, jsRound]
      norm_num

/-! Theorems: the fallback behaviour of the orchestrator (claims C1, C2). -/

theorem jsTrim_empty : jsTrim "" = "" := rfl

/-- C1 (amended): after the non-blank guard, ANY resolution or fetch failure
makes the orchestrator return the full 7-day synthetic report — but the error
state is cleared once the fallback succeeds, so no advisory that live data
could not be retrieved remains visible. -/
theorem orchestrator_fallback_clears_error (selectedLocation : String) (cfgOk : Bool)
    (geo : GeoOutcome) (wx : Except String (CurrentResponse × List ForecastItem))
    (todayDate todayDay : String) (env : MockEnv)
    (hguard : jsTrim selectedLocation ≠ "")
    (hfail : (∃ m, (resolveLocation selectedLocation cfgOk geo).result = Except.error m) ∨
             (∃ m, wx = Except.error m)) :
    (fetchWeatherData selectedLocation cfgOk geo wx todayDate todayDay env).weatherData
      = some (generateMockWeatherData selectedLocation env) ∧
    (fetchWeatherData selectedLocation cfgOk geo wx todayDate todayDay env).error = none ∧
    (generateMockWeatherData selectedLocation env).forecast.length = 7 := by
  have hnonempty : selectedLocation ≠ "" := by
    intro hh
    exact hguard (by rw [hh]; exact jsTrim_empty)
  unfold fetchWeatherData
  rw [if_neg hguard]
  cases hres : (resolveLocation selectedLocation cfgOk geo).result with
  | ok loc =>
      cases wx with
      | ok p =>
          rcases hfail with ⟨m, hm⟩ | ⟨m, hm⟩
          · rw [hres] at hm
            exact absurd hm (by simp)
          · exact absurd hm (by simp)
      | error m =>
          simp [hres, hnonempty, generateMockWeatherData]
  | error m =>
      simp [hres, hnonempty, generateMockWeatherData]

theorem orchestrator_fallback_clears_error_witness :
    (jsTrim "zzzzz" ≠ "" ∧
     (resolveLocation "zzzzz" true (GeoOutcome.ok [])).result = Except.error
       ("Unable to find location \"zzzzz\". Location \"zzzzz\" not found. Please check spelling or try a nearby city.")) ∧
    ((fetchWeatherData "zzzzz" true (GeoOutcome.ok []) (Except.error "Network Error") "d" "D" midEnv).weatherData
       = some (generateMockWeatherData "zzzzz" midEnv) ∧
     (fetchWeatherData "zzzzz" true (GeoOutcome.ok []) (Except.error "Network Error") "d" "D" midEnv).error = none ∧
     (generateMockWeatherData "zzzzz" midEnv).forecast.length = 7) :=
  ⟨⟨by decide, rfl⟩,
   orchestrator_fallback_clears_error "zzzzz" true (GeoOutcome.ok [])
     (Except.error "Network Error") "d" "D" midEnv (by decide)
     (Or.inl ⟨_, rfl⟩)⟩

/-- C1 counterexample to the claim as stated: with the geocoder returning zero
candidates for `"zzzzz"`, the run ends with a synthetic report AND a cleared
error state — no advisory/error message is left visible. -/
theorem fallback_leaves_no_advisory_counterexample :
    (fetchWeatherData "zzzzz" true (GeoOutcome.ok []) (Except.error "Network Error") "d" "D" midEnv).weatherData.isSome = true ∧
    (fetchWeatherData "zzzzz" true (GeoOutcome.ok []) (Except.error "Network Error") "d" "D" midEnv).error = none :=
  ⟨rfl, rfl⟩

/-- C2 (amended): a blank (empty after trimming) input is rejected up front —
blocking validation error, nothing fetched, no report; but an input whose
trimmed length is 1 fails validation BEFORE any network call and is then
caught by the orchestrator, which produces the fallback synthetic report and
clears the error instead of blocking. -/
theorem orchestrator_short_input (selectedLocation : String) (cfgOk : Bool)
    (geo : GeoOutcome) (wx : Except String (CurrentResponse × List ForecastItem))
    (todayDate todayDay : String) (env : MockEnv) :
    (jsTrim selectedLocation = "" →
      fetchWeatherData selectedLocation cfgOk geo wx todayDate todayDay env =
        { weatherData := none, error := some "Please enter a location name",
          geoCalled := false, weatherCalled := false }) ∧
    (jsTrim selectedLocation ≠ "" → (jsTrim selectedLocation).length < 2 →
      (fetchWeatherData selectedLocation cfgOk geo wx todayDate todayDay env).geoCalled = false ∧
      (fetchWeatherData selectedLocation cfgOk geo wx todayDate todayDay env).weatherCalled = false ∧
      (fetchWeatherData selectedLocation cfgOk geo wx todayDate todayDay env).weatherData
        = some (generateMockWeatherData selectedLocation env) ∧
      (fetchWeatherData selectedLocation cfgOk geo wx todayDate todayDay env).error = none) := by
  constructor
  · intro h
    unfold fetchWeatherData
    rw [if_pos h]
  · intro h hlen
    have hnonempty : selectedLocation ≠ "" := by
      intro hh
      exact h (by rw [hh]; exact jsTrim_empty)
    have hres : resolveLocation selectedLocation cfgOk geo =
        { result := Except.error "Location name must be at least 2 characters long",
          networkCalled := false } := by
      unfold resolveLocation
      rw [if_neg h, if_pos hlen]
    unfold fetchWeatherData
    rw [if_neg h]
    simp [hres, hnonempty]

theorem orchestrator_short_input_witness :
    (jsTrim "" = "" ∧
     fetchWeatherData "" true (GeoOutcome.ok []) (Except.error "x") "d" "D" midEnv =
       { weatherData := none, error := some "Please enter a location name",
         geoCalled := false, weatherCalled := false }) ∧
    (jsTrim "a" ≠ "" ∧ (jsTrim "a").length < 2 ∧
     ((fetchWeatherData "a" true (GeoOutcome.ok []) (Except.error "x") "d" "D" midEnv).geoCalled = false ∧
      (fetchWeatherData "a" true (GeoOutcome.ok []) (Except.error "x") "d" "D" midEnv).weatherCalled = false ∧
      (fetchWeatherData "a" true (GeoOutcome.ok []) (Except.error "x") "d" "D" midEnv).weatherData
        = some (generateMockWeatherData "a" midEnv) ∧
      (fetchWeatherData "a" true (GeoOutcome.ok []) (Except.error "x") "d" "D" midEnv).error = none)) :=
  ⟨⟨rfl, (orchestrator_short_input "" true (GeoOutcome.ok []) (Except.error "x") "d" "D" midEnv).1 rfl⟩,
   ⟨by decide, by decide,
    (orchestrator_short_input "a" true (GeoOutcome.ok []) (Except.error "x") "d" "D" midEnv).2
      (by decide) (by decide)⟩⟩

/-- C2 counterexample to the claim as stated: for the 1-character input
`"a"` the validation error does NOT block report generation — a fallback
synthetic report is produced (with no network call and a cleared error). -/
theorem short_input_still_reports_counterexample :
    (fetchWeatherData "a" true (GeoOutcome.ok []) (Except.error "x") "d" "D" midEnv).weatherData.isSome = true ∧
    (fetchWeatherData "a" true (GeoOutcome.ok []) (Except.error "x") "d" "D" midEnv).error = none ∧
    (fetchWeatherData "a" true (GeoOutcome.ok []) (Except.error "x") "d" "D" midEnv).geoCalled = false :=
  ⟨rfl, rfl, rfl⟩

/-! Theorems: the current-conditions override of the first summary (claim C6). -/

theorem pushItem_ne_nil (acc : List (String × DayGroup)) (it : ForecastItem) :
    pushItem acc it ≠ [] := by
  cases acc with
  | nil => simp [pushItem]
  | cons p rest =>
      obtain ⟨k, g⟩ := p
      simp only [pushItem]
      split <;> simp

theorem foldl_pushItem_ne_nil (items : List ForecastItem)
    (acc : List (String × DayGroup)) (h : acc ≠ []) :
    items.foldl pushItem acc ≠ [] := by
  induction items generalizing acc with
  | nil => exact h
  | cons it rest ih => exact ih _ (pushItem_ne_nil acc it)

theorem dailyForecasts_ne_nil (items : List ForecastItem) (h : items ≠ []) :
    dailyForecasts items ≠ [] := by
  cases items with
  | nil => exact absurd rfl h
  | cons it rest =>
      unfold dailyForecasts
      simp only [List.foldl_cons]
      exact foldl_pushItem_ne_nil rest _ (pushItem_ne_nil [] it)

theorem aggregateForecast_ne_nil (items : List ForecastItem) (h : items ≠ []) :
    aggregateForecast items ≠ [] := by
  unfold aggregateForecast
  cases hd : dailyForecasts items with
  | nil => exact absurd hd (dailyForecasts_ne_nil items h)
  | cons p rest => simp

/-- C6: with at least one forecast sample, the first slot of the returned
forecast array is the current-conditions record itself (wholesale
replacement), whose numeric fields are the converted provider current
values, not the interval-derived summary for that date. -/
theorem first_forecast_slot_is_current (todayDate todayDay label : String)
    (cur : CurrentResponse) (items : List ForecastItem) (h : items ≠ []) :
    (fetchRealWeatherData todayDate todayDay label cur items).forecast.head? =
      some (fetchRealWeatherData todayDate todayDay label cur items).current ∧
    (fetchRealWeatherData todayDate todayDay label cur items).current =
      currentSummary todayDate todayDay cur ∧
    (currentSummary todayDate todayDay cur).tempMax = ((jsRound cur.temp_max : ℤ) : ℚ) ∧
    (currentSummary todayDate todayDay cur).tempMin = ((jsRound cur.temp_min : ℤ) : ℚ) ∧
    (currentSummary todayDate todayDay cur).humidity = cur.humidity ∧
    (currentSummary todayDate todayDay cur).rainfall =
      (match cur.rain1h with
       | none => (0 : ℚ)
       | some v => ((jsRound v : ℤ) : ℚ)) ∧
    (currentSummary todayDate todayDay cur).windSpeed =
      ((jsRound (cur.windSpeed * (18/5)) : ℤ) : ℚ) := by
  refine ⟨?_, rfl, rfl, rfl, rfl, rfl, rfl⟩
  unfold fetchRealWeatherData
  cases hfc : aggregateForecast items with
  | nil => exact absurd hfc (aggregateForecast_ne_nil items h)
  | cons s rest => simp

theorem first_forecast_slot_is_current_witness :
    ([soloItem] ≠ []) ∧
    ((fetchRealWeatherData "t" "T" "L" demoCurrent [soloItem]).forecast.head? =
       some (fetchRealWeatherData "t" "T" "L" demoCurrent [soloItem]).current ∧
     (fetchRealWeatherData "t" "T" "L" demoCurrent [soloItem]).current =
       currentSummary "t" "T" demoCurrent ∧
     (currentSummary "t" "T" demoCurrent).tempMax = ((jsRound demoCurrent.temp_max : ℤ) : ℚ) ∧
     (currentSummary "t" "T" demoCurrent).tempMin = ((jsRound demoCurrent.temp_min : ℤ) : ℚ) ∧
     (currentSummary "t" "T" demoCurrent).humidity = demoCurrent.humidity ∧
     (currentSummary "t" "T" demoCurrent).rainfall =
       (match demoCurrent.rain1h with
        | none => (0 : ℚ)
        | some v => ((jsRound v : ℤ) : ℚ)) ∧
     (currentSummary "t" "T" demoCurrent).windSpeed =
       ((jsRound (demoCurrent.windSpeed * (18/5)) : ℤ) : ℚ)) :=
  ⟨List.cons_ne_nil soloItem [],
   first_forecast_slot_is_current "t" "T" "L" demoCurrent [soloItem]
     (List.cons_ne_nil soloItem [])⟩

/-! Theorems: per-date aggregation formulas (claim C7). -/

theorem foldl_addToGroup_fields (items : List ForecastItem) (g : DayGroup) :
    (items.foldl addToGroup g).temps = g.temps ++ items.map ForecastItem.temp ∧
    (items.foldl addToGroup g).humidity = g.humidity ++ items.map ForecastItem.humidity ∧
    (items.foldl addToGroup g).rainfall = g.rainfall ++ items.map rainVal ∧
    (items.foldl addToGroup g).windSpeed =
      g.windSpeed ++ items.map (fun it => it.windSpeed * (18/5)) ∧
    (items.foldl addToGroup g).conditions = g.conditions ++ items.map ForecastItem.weatherMain ∧
    (items.foldl addToGroup g).icons = g.icons ++ items.map ForecastItem.weatherMain ∧
    (items.foldl addToGroup g).dateStr = g.dateStr ∧
    (items.foldl addToGroup g).dayStr = g.dayStr := by
  induction items generalizing g with
  | nil => simp
  | cons it rest ih =>
      simp only [List.foldl_cons, List.map_cons]
      obtain ⟨h1, h2, h3, h4, h5, h6, h7, h8⟩ := ih (addToGroup g it)
      refine ⟨?_, ?_, ?_, ?_, ?_, ?_, ?_, ?_⟩ <;>
        simp_all [addToGroup]

theorem foldl_pushItem_single (k : String) (g : DayGroup) (items : List ForecastItem)
    (hk : ∀ it ∈ items, it.dateKey = k) :
    items.foldl pushItem [(k, g)] = [(k, items.foldl addToGroup g)] := by
  induction items generalizing g with
  | nil => rfl
  | cons it rest ih =>
      have hk0 : it.dateKey = k := hk it (List.mem_cons_self it rest)
      have hstep : pushItem [(k, g)] it = [(k, addToGroup g it)] := by
        simp [pushItem, hk0]
      simp only [List.foldl_cons, hstep]
      exact ih (addToGroup g it) (fun x hx => hk x (List.mem_cons_of_mem it hx))

theorem dailyForecasts_single_date (k : String) (items : List ForecastItem)
    (hne : items ≠ []) (hk : ∀ it ∈ items, it.dateKey = k) :
    ∃ G : DayGroup, dailyForecasts items = [(k, G)] ∧
      G.temps = items.map ForecastItem.temp ∧
      G.humidity = items.map ForecastItem.humidity ∧
      G.rainfall = items.map rainVal ∧
      G.windSpeed = items.map (fun it => it.windSpeed * (18/5)) ∧
      G.conditions = items.map ForecastItem.weatherMain := by
  cases items with
  | nil => exact absurd rfl hne
  | cons it rest =>
      have hk0 : it.dateKey = k := hk it (List.mem_cons_self it rest)
      have hrest : ∀ x ∈ rest, x.dateKey = k :=
        fun x hx => hk x (List.mem_cons_of_mem it hx)
      refine ⟨rest.foldl addToGroup (addToGroup (emptyGroup it) it), ?_, ?_, ?_, ?_, ?_, ?_⟩
      · unfold dailyForecasts
        simp only [List.foldl_cons]
        have hstep : pushItem [] it = [(k, addToGroup (emptyGroup it) it)] := by
          simp [pushItem, hk0]
        rw [hstep]
        exact foldl_pushItem_single k (addToGroup (emptyGroup it) it) rest hrest
      all_goals
        obtain ⟨h1, h2, h3, h4, h5, h6, _, _⟩ :=
          foldl_addToGroup_fields rest (addToGroup (emptyGroup it) it)
        simp_all [addToGroup, emptyGroup]

/-- C7: for a non-empty batch of samples sharing one calendar date, the
aggregation stage produces exactly one summary, whose fields are the rounded
maximum/minimum temperature, rounded mean humidity, rounded rainfall sum and
rounded mean converted wind speed over the samples. -/
theorem aggregate_single_date_formulas (k : String) (items : List ForecastItem)
    (hne : items ≠ []) (hk : ∀ it ∈ items, it.dateKey = k) :
    (aggregateForecast items).length = 1 ∧
    ∀ s ∈ aggregateForecast items,
      s.tempMax = ((jsRound (maxQ (items.map ForecastItem.temp)) : ℤ) : ℚ) ∧
      s.tempMin = ((jsRound (minQ (items.map ForecastItem.temp)) : ℤ) : ℚ) ∧
      s.humidity = ((jsRound (sumQ (items.map ForecastItem.humidity) /
        ((items.length : ℚ))) : ℤ) : ℚ) ∧
      s.rainfall = ((jsRound (sumQ (items.map rainVal)) : ℤ) : ℚ) ∧
      s.windSpeed = ((jsRound (sumQ (items.map (fun it => it.windSpeed * (18/5))) /
        ((items.length : ℚ))) : ℤ) : ℚ) := by
  obtain ⟨G, hdf, ht, hh, hr, hw, _⟩ := dailyForecasts_single_date k items hne hk
  have hagg : aggregateForecast items = [mkSummary G] := by
    unfold aggregateForecast
    rw [hdf]
    rfl
  rw [hagg]
  refine ⟨rfl, ?_⟩
  intro s hs
  rcases List.mem_singleton.mp hs with rfl
  have hhl : G.humidity.length = items.length := by rw [hh, List.length_map]
  have hwl : G.windSpeed.length = items.length := by rw [hw, List.length_map]
  simp [mkSummary, ht, hh, hr, hw, hhl, hwl]

theorem aggregate_single_date_formulas_witness :
    (sampleItems ≠ [] ∧ ∀ it ∈ sampleItems, it.dateKey = "Mon") ∧
    (aggregateForecast sampleItems).length = 1 ∧
    ∀ s ∈ aggregateForecast sampleItems,
      s.tempMax = 25 ∧ s.tempMin = 18 ∧ s.humidity = 65 ∧
      s.rainfall = 2 ∧ s.windSpeed = 10 := by
  have hne : sampleItems ≠ [] := by simp [sampleItems]
  have hk : ∀ it ∈ sampleItems, it.dateKey = "Mon" := by decide
  obtain ⟨hlen, hfields⟩ := aggregate_single_date_formulas "Mon" sampleItems hne hk
  refine ⟨⟨hne, hk⟩, hlen, ?_⟩
  intro s hs
  obtain ⟨e1, e2, e3, e4, e5⟩ := hfields s hs
  refine ⟨?_, ?_, ?_, ?_, ?_⟩
  · rw [e1]
    simp only [sampleItems, List.map_cons, List.map_nil, maxQ, List.foldl_cons,
      List.foldl_nil, jsRound]
    norm_num [max_def]
  · rw [e2]
    simp only [sampleItems, List.map_cons, List.map_nil, minQ, List.foldl_cons,
      List.foldl_nil, jsRound]
    norm_num [min_def]
  · rw [e3]
    simp only [sampleItems, List.map_cons, List.map_nil, sumQ, List.foldl_cons,
      List.foldl_nil, List.length_cons, List.length_nil, jsRound]
    norm_num
  · rw [e4]
    simp only [sampleItems, List.map_cons, List.map_nil, sumQ, rainVal,
      List.foldl_cons, List.foldl_nil, jsRound, Option.getD_some]
    norm_num
  · rw [e5]
    simp only [sampleItems, List.map_cons, List.map_nil, sumQ, List.foldl_cons,
      List.foldl_nil, List.length_cons, List.length_nil, jsRound]
    norm_num

/-! Theorems: the mode with its sort-and-pop tie-break (claim C8). -/

theorem le_foldr_max (ns : List ℕ) (a : ℕ) (ha : a ∈ ns) : a ≤ ns.foldr max 0 := by
  induction ns with
  | nil => cases ha
  | cons b t ih =>
      rcases List.mem_cons.mp ha with rfl | h
      · exact le_max_left _ _
      · exact le_trans (ih h) (le_max_right _ _)

theorem foldr_max_mem (ns : List ℕ) (h : ns ≠ []) : ns.foldr max 0 ∈ ns := by
  induction ns with
  | nil => exact absurd rfl h
  | cons b t ih =>
      cases t with
      | nil => simp
      | cons c u =>
          have hm := ih (List.cons_ne_nil c u)
          simp only [List.foldr_cons] at hm ⊢
          rcases le_total b (c ⊔ u.foldr max 0) with hle | hle
          · rw [max_eq_right hle]
            exact List.mem_cons_of_mem _ hm
          · rw [max_eq_left hle]
            exact List.mem_cons_self _ _

theorem count_le_maxCnt (l : List String) (x : String) (hx : x ∈ l) :
    l.count x ≤ maxCnt l :=
  le_foldr_max _ _ (List.mem_map_of_mem (fun y => l.count y) hx)

theorem exists_maxCnt (l : List String) (h : l ≠ []) :
    ∃ x ∈ l, l.count x = maxCnt l := by
  have hmem : maxCnt l ∈ l.map (fun y => l.count y) :=
    foldr_max_mem _ (by simpa using h)
  obtain ⟨x, hx, hcx⟩ := List.mem_map.mp hmem
  exact ⟨x, hx, hcx⟩

theorem flatMap_nil_of_forall {α β : Type} (cs : List α) (f : α → List β)
    (h : ∀ c ∈ cs, f c = []) : cs.flatMap f = [] := by
  induction cs with
  | nil => rfl
  | cons c t ih =>
      simp only [List.flatMap_cons, h c (List.mem_cons_self c t), List.nil_append]
      exact ih (fun x hx => h x (List.mem_cons_of_mem c hx))

theorem sortByCount_split (l : List String) (h : l ≠ []) :
    ∃ pre, sortByCount l = pre ++ l.filter (fun x => l.count x == maxCnt l) := by
  have hMle : maxCnt l ≤ l.length := by
    obtain ⟨x, hx, hcx⟩ := exists_maxCnt l h
    calc maxCnt l = l.count x := hcx.symm
      _ ≤ l.length := List.count_le_length x l
  unfold sortByCount
  have hsplit : l.length + 1 = (maxCnt l + 1) + (l.length - maxCnt l) := by omega
  rw [hsplit, List.range_add, List.flatMap_append]
  have htail : (List.map (fun x => maxCnt l + 1 + x) (List.range (l.length - maxCnt l))).flatMap
      (fun c => l.filter (fun y => l.count y == c)) = [] := by
    apply flatMap_nil_of_forall
    intro c hc
    obtain ⟨x, _, rfl⟩ := List.mem_map.mp hc
    rw [List.filter_eq_nil_iff]
    intro a ha
    have hle := count_le_maxCnt l a ha
    simp only [beq_iff_eq]
    omega
  rw [htail, List.append_nil, List.range_succ, List.flatMap_append]
  exact ⟨(List.range (maxCnt l)).flatMap (fun c => l.filter (fun y => l.count y == c)),
    by simp⟩

theorem maxCnt_filter_ne_nil (l : List String) (h : l ≠ []) :
    l.filter (fun x => l.count x == maxCnt l) ≠ [] := by
  obtain ⟨x, hx, hcx⟩ := exists_maxCnt l h
  intro hnil
  have := List.filter_eq_nil_iff.mp hnil x hx
  simp [hcx] at this

theorem getMostFrequent_spec (l : List String) (h : l ≠ []) :
    getMostFrequent l = (l.filter (fun x => l.count x == maxCnt l)).getLast? := by
  obtain ⟨pre, hpre⟩ := sortByCount_split l h
  unfold getMostFrequent
  rw [hpre, List.getLast?_append]
  cases hB : (l.filter (fun x => l.count x == maxCnt l)).getLast? with
  | none =>
      exact absurd (List.getLast?_eq_none_iff.mp hB) (maxCnt_filter_ne_nil l h)
  | some v => rfl

/-- C8: on a non-empty list of condition codes, `getMostFrequent` returns a
value of maximal occurrence count, and specifically the value occupying the
last position (in original iteration order) among all maximal-count
occurrences — the sort-and-pop tie-break. -/
theorem most_frequent_with_tie_break (l : List String) (h : l ≠ []) :
    ∃ v, getMostFrequent l = some v ∧ v ∈ l ∧ l.count v = maxCnt l ∧
      (l.filter (fun x => l.count x == maxCnt l)).getLast? = some v := by
  have heq := getMostFrequent_spec l h
  have hne := maxCnt_filter_ne_nil l h
  cases hB : (l.filter (fun x => l.count x == maxCnt l)).getLast? with
  | none => exact absurd (List.getLast?_eq_none_iff.mp hB) hne
  | some v =>
      have hvmem : v ∈ l.filter (fun x => l.count x == maxCnt l) :=
        List.mem_of_mem_getLast? (by rw [hB]; rfl)
      obtain ⟨hvl, hvc⟩ := List.mem_filter.mp hvmem
      refine ⟨v, ?_, hvl, by simpa using hvc, rfl⟩
      rw [heq, hB]

theorem most_frequent_with_tie_break_witness :
    getMostFrequent tieList = some "Clear" ∧ maxCnt tieList = 2 ∧
    (∃ v, getMostFrequent tieList = some v ∧ v ∈ tieList ∧
      tieList.count v = maxCnt tieList ∧
      (tieList.filter (fun x => tieList.count x == maxCnt tieList)).getLast? = some v) :=
  ⟨by decide, by decide, most_frequent_with_tie_break tieList (by decide)⟩

/-! Theorems: condition vocabulary of the fetched report (claim C5). -/

theorem getWeatherCondition_mem (m : String) :
    getWeatherCondition m ∈ normalizedConditions := by
  unfold getWeatherCondition
  split_ifs <;> decide

theorem getMostFrequent_mem (l : List String) (v : String)
    (h : getMostFrequent l = some v) : v ∈ l := by
  have hlast : (sortByCount l).getLast? = some v := h
  have hv : v ∈ sortByCount l :=
    List.mem_of_mem_getLast? (Option.mem_def.mpr hlast)
  obtain ⟨c, _, hvf⟩ := List.mem_flatMap.mp hv
  exact (List.mem_filter.mp hvf).1

theorem pushItem_conditions_inv (ms : List String) (acc : List (String × DayGroup))
    (it : ForecastItem) (hit : it.weatherMain ∈ ms)
    (hacc : ∀ p ∈ acc, p.2.conditions ≠ [] ∧ ∀ c ∈ p.2.conditions, c ∈ ms) :
    ∀ p ∈ pushItem acc it, p.2.conditions ≠ [] ∧ ∀ c ∈ p.2.conditions, c ∈ ms := by
  induction acc with
  | nil =>
      intro p hp
      simp only [pushItem, List.mem_singleton] at hp
      subst hp
      refine ⟨by simp [addToGroup, emptyGroup], ?_⟩
      intro c hc
      simp only [addToGroup, emptyGroup, List.nil_append, List.mem_singleton] at hc
      subst hc
      exact hit
  | cons q rest ih =>
      obtain ⟨k, g⟩ := q
      intro p hp
      simp only [pushItem] at hp
      by_cases hk : k = it.dateKey
      · rw [if_pos hk] at hp
        rcases List.mem_cons.mp hp with rfl | hmem
        · have hq := hacc (k, g) (List.mem_cons_self _ _)
          refine ⟨by simp [addToGroup], ?_⟩
          intro c hc
          simp only [addToGroup, List.mem_append, List.mem_singleton] at hc
          rcases hc with hc | rfl
          · exact hq.2 c hc
          · exact hit
        · exact hacc p (List.mem_cons_of_mem _ hmem)
      · rw [if_neg hk] at hp
        rcases List.mem_cons.mp hp with rfl | hmem
        · exact hacc _ (List.mem_cons_self _ _)
        · exact ih (fun r hr => hacc r (List.mem_cons_of_mem _ hr)) p hmem

theorem dailyForecasts_conditions_inv (items : List ForecastItem) :
    ∀ p ∈ dailyForecasts items, p.2.conditions ≠ [] ∧
      ∀ c ∈ p.2.conditions, c ∈ items.map ForecastItem.weatherMain := by
  unfold dailyForecasts
  suffices hgen : ∀ (ms : List String) (todo : List ForecastItem)
      (acc : List (String × DayGroup)),
      (∀ it ∈ todo, it.weatherMain ∈ ms) →
      (∀ p ∈ acc, p.2.conditions ≠ [] ∧ ∀ c ∈ p.2.conditions, c ∈ ms) →
      ∀ p ∈ todo.foldl pushItem acc, p.2.conditions ≠ [] ∧
        ∀ c ∈ p.2.conditions, c ∈ ms by
    exact hgen (items.map ForecastItem.weatherMain) items []
      (fun it hit => List.mem_map_of_mem _ hit) (by simp)
  intro ms todo
  induction todo with
  | nil => intro acc _ hacc; exact hacc
  | cons it rest ih =>
      intro acc htodo hacc
      simp only [List.foldl_cons]
      exact ih _ (fun x hx => htodo x (List.mem_cons_of_mem it hx))
        (pushItem_conditions_inv ms acc it (htodo it (List.mem_cons_self it rest)) hacc)

/-- C5 (amended): the condition of the current reading (and therefore of the first
forecast slot, which is replaced by it) is always normalized into the fixed
enumeration with unmapped provider values defaulting to `"Partly Cloudy"`;
every other forecast-day summary instead carries a raw provider
`weather[0].main` value (the most frequent one of its date group), which
need not belong to the enumeration. -/
theorem report_condition_vocabulary (todayDate todayDay label : String)
    (cur : CurrentResponse) (items : List ForecastItem) :
    (fetchRealWeatherData todayDate todayDay label cur items).current.condition ∈
      normalizedConditions ∧
    ∀ s ∈ (fetchRealWeatherData todayDate todayDay label cur items).forecast,
      s.condition ∈ normalizedConditions ∨
      s.condition ∈ items.map ForecastItem.weatherMain := by
  have hcur : (currentSummary todayDate todayDay cur).condition ∈ normalizedConditions :=
    getWeatherCondition_mem cur.weatherMain
  refine ⟨hcur, ?_⟩
  intro s hs
  have hmem : s = currentSummary todayDate todayDay cur ∨ s ∈ aggregateForecast items := by
    simp only [fetchRealWeatherData] at hs
    by_cases hlen : (aggregateForecast items).length > 0
    · rw [if_pos hlen] at hs
      rcases List.mem_or_eq_of_mem_set hs with hmem | rfl
      · exact Or.inr hmem
      · exact Or.inl rfl
    · rw [if_neg hlen] at hs
      exact Or.inr hs
  rcases hmem with rfl | hmem
  · exact Or.inl hcur
  · right
    unfold aggregateForecast at hmem
    obtain ⟨g, hg, rfl⟩ := List.mem_map.mp hmem
    have hgtake : g ∈ (dailyForecasts items).map Prod.snd := List.mem_of_mem_take hg
    obtain ⟨p, hp, rfl⟩ := List.mem_map.mp hgtake
    obtain ⟨hne, hsub⟩ := dailyForecasts_conditions_inv items p hp
    show (getMostFrequent p.2.conditions).getD "" ∈ items.map ForecastItem.weatherMain
    cases hv : getMostFrequent p.2.conditions with
    | none =>
        have heq := getMostFrequent_spec p.2.conditions hne
        rw [hv] at heq
        exact absurd (List.getLast?_eq_none_iff.mp heq.symm)
          (maxCnt_filter_ne_nil p.2.conditions hne)
    | some v =>
        rw [Option.getD_some]
        exact hsub v (getMostFrequent_mem p.2.conditions v hv)

/-- C5 counterexample to the claim as stated: the second forecast-day summary
carries the raw provider value `"Clear"`, which is outside the normalized
enumeration (it was never passed through `getWeatherCondition`). -/
theorem raw_condition_in_forecast_counterexample :
    ((fetchRealWeatherData "t" "T" "L" demoCurrent rawItems).forecast.map
       DailySummary.condition) = ["Cloudy", "Clear"] ∧
    "Clear" ∉ normalizedConditions :=
  ⟨rfl, by decide⟩

theorem report_condition_vocabulary_witness :
    (fetchRealWeatherData "t" "T" "L" demoCurrent rawItems).current.condition ∈
      normalizedConditions ∧
    ∀ s ∈ (fetchRealWeatherData "t" "T" "L" demoCurrent rawItems).forecast,
      s.condition ∈ normalizedConditions ∨
      s.condition ∈ rawItems.map ForecastItem.weatherMain :=
  report_condition_vocabulary "t" "T" "L" demoCurrent rawItems
